import Mathlib

/-!
Verification of the `osmium::Timestamp` value type from
`include/osmium/osm/timestamp.hpp` (libosmium).

The C++ code is shallowly embedded:
  * C strings are `List Char`; reading `str[i]` past the terminator is
    modelled by `getD` with the NUL character as default (the C parser
    short-circuits on the first failing character, so it never reads past
    the first NUL and the model is exact).
  * `uint32_t` is `Nat` reduced modulo `2^32` where the code narrows.
  * `time_t` is `Int` (64-bit signed on the target platforms; no value in
    range here comes near `2^63`).
  * `throw std::invalid_argument` becomes an `Option` result (`none`).
  * `timegm` (libc) is modelled by its documented semantics: the proleptic
    Gregorian calendar-to-epoch-seconds conversion with out-of-range
    `tm_mday` normalized by linear continuation (Feb 29 of a non-leap year
    is the day after Feb 28), which is exactly how `timegm` normalizes.
  * `gmtime_r`/`strftime` are modelled by the inverse conversion and
    fixed-width zero-padded rendering of `"%Y-%m-%dT%H:%M:%SZ"`.
-/

namespace Osmium

/-- The NUL character, standing for the C string terminator. -/
def nulChar : Char := Char.ofNat 0

/-- `str[i]` of a C string: the character at `i`, or NUL past the end. -/
def cAt (s : List Char) (i : Nat) : Char := s.getD i nulChar

/-- `str[i] >= '0' && str[i] <= '9'` from the parser's structural check. -/
def isDigitAt (s : List Char) (i : Nat) : Bool :=
  48 ≤ (cAt s i).toNat && (cAt s i).toNat ≤ 57

/-- `str[i] - '0'` as an integer (only meaningful on digit positions). -/
def digitAt (s : List Char) (i : Nat) : Int :=
  ((cAt s i).toNat : Int) - 48

/-- The `mon_lengths` table from `detail::parse_timestamp`. -/
def mon_lengths : List Int := [31, 29, 31, 30, 31, 30, 31, 31, 30, 31, 30, 31]

/-- Structural check of `detail::parse_timestamp`: digits at positions
0-3, 5-6, 8-9, 11-12, 14-15, 17-18 and the literal separators
`-`, `-`, `T`, `:`, `:`, `Z` at positions 4, 7, 10, 13, 16, 19. -/
def structuralOK (s : List Char) : Bool :=
  isDigitAt s 0 && isDigitAt s 1 && isDigitAt s 2 && isDigitAt s 3 &&
  (cAt s 4 == '-') &&
  isDigitAt s 5 && isDigitAt s 6 &&
  (cAt s 7 == '-') &&
  isDigitAt s 8 && isDigitAt s 9 &&
  (cAt s 10 == 'T') &&
  isDigitAt s 11 && isDigitAt s 12 &&
  (cAt s 13 == ':') &&
  isDigitAt s 14 && isDigitAt s 15 &&
  (cAt s 16 == ':') &&
  isDigitAt s 17 && isDigitAt s 18 &&
  (cAt s 19 == 'Z')

/-- `tm.tm_year` as computed by the parser: four-digit year minus 1900. -/
def tmYear (s : List Char) : Int :=
  digitAt s 0 * 1000 + digitAt s 1 * 100 + digitAt s 2 * 10 + digitAt s 3 - 1900

/-- `tm.tm_mon` as computed by the parser: two-digit month minus 1. -/
def tmMon (s : List Char) : Int := digitAt s 5 * 10 + digitAt s 6 - 1

/-- `tm.tm_mday` as computed by the parser. -/
def tmMday (s : List Char) : Int := digitAt s 8 * 10 + digitAt s 9

/-- `tm.tm_hour` as computed by the parser. -/
def tmHour (s : List Char) : Int := digitAt s 11 * 10 + digitAt s 12

/-- `tm.tm_min` as computed by the parser. -/
def tmMin (s : List Char) : Int := digitAt s 14 * 10 + digitAt s 15

/-- `tm.tm_sec` as computed by the parser. -/
def tmSec (s : List Char) : Int := digitAt s 17 * 10 + digitAt s 18

/-- The range check of `detail::parse_timestamp` on the extracted fields. -/
def rangeOK (s : List Char) : Bool :=
  decide (0 ≤ tmYear s) &&
  decide (0 ≤ tmMon s) && decide (tmMon s ≤ 11) &&
  decide (1 ≤ tmMday s) && decide (tmMday s ≤ mon_lengths.getD (tmMon s).toNat 0) &&
  decide (0 ≤ tmHour s) && decide (tmHour s ≤ 23) &&
  decide (0 ≤ tmMin s) && decide (tmMin s ≤ 59) &&
  decide (0 ≤ tmSec s) && decide (tmSec s ≤ 60)

/-- `y` is a leap year of the proleptic Gregorian calendar. -/
def isLeap (y : Nat) : Bool := y % 4 == 0 && (y % 100 != 0 || y % 400 == 0)

/-- Days from 0000-01-01 to the start of year `y` (proleptic Gregorian,
year 0 counted as a leap year); intended for `y ≥ 1`. -/
def daysBeforeYear (y : Nat) : Nat :=
  365 * y + (y - 1) / 4 - (y - 1) / 100 + (y - 1) / 400 + 1

/-- Days from the start of the year to the start of zero-based month
`mon0` in a year whose leapness is `leap`. -/
def daysBeforeMonth (leap : Bool) (mon0 : Nat) : Nat :=
  [0, 31, 59, 90, 120, 151, 181, 212, 243, 273, 304, 334].getD mon0 0 +
    (if leap && decide (2 ≤ mon0) then 1 else 0)

/-- Days from 0000-01-01 to year `y`, zero-based month `mon0`, day of
month `mday` (out-of-range `mday` continues linearly, as `timegm`
normalization does). -/
def daysFromCivil (y mon0 mday : Nat) : Nat :=
  daysBeforeYear y + daysBeforeMonth (isLeap y) mon0 + (mday - 1)

/-- Days from 0000-01-01 to the epoch 1970-01-01. -/
def epochDays : Nat := 719528

/-- Model of libc `timegm` on an already-range-checked `struct tm` as
filled in by the parser: epoch seconds of the given UTC calendar time. -/
def timegm (year mon mday hour min sec : Int) : Int :=
  ((daysFromCivil (1900 + year).toNat mon.toNat mday.toNat : Int) - epochDays) * 86400 +
    hour * 3600 + min * 60 + sec

/-- `detail::parse_timestamp`: returns the `time_t` on success and `none`
where the C++ code throws `std::invalid_argument("can not parse timestamp")`. -/
def parse_timestamp (s : List Char) : Option Int :=
  if structuralOK s then
    if rangeOK s then
      some (timegm (tmYear s) (tmMon s) (tmMday s) (tmHour s) (tmMin s) (tmSec s))
    else none
  else none

/-- The `osmium::Timestamp` class: a single `uint32_t` member. -/
structure Timestamp where
  m_timestamp : Nat
  deriving DecidableEq, Repr

namespace Timestamp

/-- The integral-type constructor: `m_timestamp(uint32_t(timestamp))`. -/
def ofUInt (t : Nat) : Timestamp := ⟨t % 2 ^ 32⟩

/-- The narrowing `static_cast<uint32_t>` of a (possibly negative) `time_t`,
as used by the string constructor. -/
def ofTimeT (z : Int) : Timestamp := ⟨(z % (2 ^ 32 : Int)).toNat⟩

/-- The `Timestamp(const char*)` constructor: parse, then narrow to
`uint32_t`; `none` where the C++ constructor throws. -/
def ofString (s : List Char) : Option Timestamp :=
  (parse_timestamp s).map ofTimeT

/-- `Timestamp::valid()`: true iff the stored value is not 0. -/
def valid (t : Timestamp) : Bool := t.m_timestamp != 0

/-- `Timestamp::seconds_since_epoch()`: `time_t(m_timestamp)`. -/
def seconds_since_epoch (t : Timestamp) : Int := (t.m_timestamp : Int)

/-- `Timestamp::operator+=`: `m_timestamp += d` in `uint32_t` arithmetic. -/
def op_add_assign (t : Timestamp) (d : Nat) : Timestamp :=
  ⟨(t.m_timestamp + d) % 2 ^ 32⟩

/-- `Timestamp::operator-=`: `m_timestamp -= d` in `uint32_t` arithmetic. -/
def op_sub_assign (t : Timestamp) (d : Nat) : Timestamp :=
  ⟨(t.m_timestamp + (2 ^ 32 - d % 2 ^ 32)) % 2 ^ 32⟩

end Timestamp

/-- `civil_from_days`: inverse calendar conversion (the model of
`gmtime_r`), mapping days since the epoch to (year, 1-based month, day). -/
def civilFromDays (n : Nat) : Nat × Nat × Nat :=
  let z := n + 719468
  let era := z / 146097
  let doe := z % 146097
  let yoe := (doe - doe / 1460 + doe / 36524 - doe / 146096) / 365
  let y := yoe + era * 400
  let doy := doe - (365 * yoe + yoe / 4 - yoe / 100)
  let mp := (5 * doy + 2) / 153
  let d := doy - (153 * mp + 2) / 5 + 1
  let m := if mp < 10 then mp + 3 else mp - 9
  (if m ≤ 2 then y + 1 else y, m, d)

/-- Two-digit zero-padded rendering (`%m`, `%d`, `%H`, `%M`, `%S`). -/
def pad2 (n : Nat) : String :=
  (if n < 10 then "0" else "") ++ toString n

/-- Four-digit zero-padded rendering of the year (`%Y`; every year in the
`uint32_t` range has exactly four digits). -/
def pad4 (n : Nat) : String :=
  (if n < 10 then "000" else if n < 100 then "00" else if n < 1000 then "0" else "") ++
    toString n

/-- `Timestamp::to_iso()`: empty string for the invalid value 0, otherwise
the `gmtime_r` breakdown rendered as `yyyy-mm-ddThh:mm:ssZ`. -/
def Timestamp.to_iso (t : Timestamp) : String :=
  if t.m_timestamp = 0 then "" else
    let days := t.m_timestamp / 86400
    let rem := t.m_timestamp % 86400
    let c := civilFromDays days
    pad4 c.1 ++ "-" ++ pad2 c.2.1 ++ "-" ++ pad2 c.2.2 ++ "T" ++
      pad2 (rem / 3600) ++ ":" ++ pad2 (rem % 3600 / 60) ++ ":" ++ pad2 (rem % 60) ++ "Z"

/-- `osmium::start_of_time()`: `Timestamp(1)`. -/
def start_of_time : Timestamp := Timestamp.ofUInt 1

/-- `osmium::end_of_time()`: `Timestamp(0xFFFFFFFF)`. -/
def end_of_time : Timestamp := Timestamp.ofUInt 4294967295

/-- `operator==`: `uint32_t(lhs) == uint32_t(rhs)`. -/
def ts_eq (a b : Timestamp) : Bool := a.m_timestamp == b.m_timestamp

/-- `operator!=`: `!(lhs == rhs)`. -/
def ts_ne (a b : Timestamp) : Bool := !(ts_eq a b)

/-- `operator<`: `uint32_t(lhs) < uint32_t(rhs)`. -/
def ts_lt (a b : Timestamp) : Bool := a.m_timestamp < b.m_timestamp

/-- `operator>`: `rhs < lhs`. -/
def ts_gt (a b : Timestamp) : Bool := ts_lt b a

/-- `operator<=`: `!(rhs < lhs)`. -/
def ts_le (a b : Timestamp) : Bool := !(ts_lt b a)

/-- `operator>=`: `!(lhs < rhs)`. -/
def ts_ge (a b : Timestamp) : Bool := !(ts_lt a b)

end Osmium

namespace Osmium

/-- C1: parsing the string produced by the formatter for each of the
representation values 1, 1000000, 1500000000 and 0xFFFFFFFE yields the
same value back. -/
theorem C1_roundtrip :
    Timestamp.ofString (Timestamp.mk 1).to_iso.data = some (Timestamp.mk 1) ∧
    Timestamp.ofString (Timestamp.mk 1000000).to_iso.data = some (Timestamp.mk 1000000) ∧
    Timestamp.ofString (Timestamp.mk 1500000000).to_iso.data = some (Timestamp.mk 1500000000) ∧
    Timestamp.ofString (Timestamp.mk 4294967294).to_iso.data = some (Timestamp.mk 4294967294) := by
  refine ⟨?_, ?_, ?_, ?_⟩ <;> rfl

/-- C3: the formatter maps the invalid value 0 to the empty string, and
the parser fails on the empty string. -/
theorem C3_zero_and_empty :
    (Timestamp.mk 0).to_iso = "" ∧ parse_timestamp "".data = none := by
  exact ⟨rfl, rfl⟩

/-- C4: the literal "2016-07-25T09:30:00Z" parses to 1469439000, and
formatting 1469439000 yields exactly that string. -/
theorem C4_literal :
    Timestamp.ofString "2016-07-25T09:30:00Z".data = some (Timestamp.mk 1469439000) ∧
    (Timestamp.mk 1469439000).to_iso = "2016-07-25T09:30:00Z" := by
  exact ⟨rfl, rfl⟩

/-- C9: the epoch string "1970-01-01T00:00:00Z" parses successfully to the
representation value 0, which reports valid() = false and formats back to
the empty string (not the original text). -/
theorem C9_epoch_parses_to_invalid :
    Timestamp.ofString "1970-01-01T00:00:00Z".data = some (Timestamp.mk 0) ∧
    (Timestamp.mk 0).valid = false ∧
    (Timestamp.mk 0).to_iso = "" := by
  exact ⟨rfl, rfl, rfl⟩

/-- C5: all six comparison operators agree with the integer comparison of
the stored seconds value; the resulting order is total and transitive,
ties are exactly equality, and the invalid value 0 compares strictly
before start_of_time. -/
theorem C5_order (a b c : Timestamp) :
    (ts_eq a b = true ↔ a.m_timestamp = b.m_timestamp) ∧
    (ts_ne a b = true ↔ a.m_timestamp ≠ b.m_timestamp) ∧
    (ts_lt a b = true ↔ a.m_timestamp < b.m_timestamp) ∧
    (ts_gt a b = true ↔ b.m_timestamp < a.m_timestamp) ∧
    (ts_le a b = true ↔ a.m_timestamp ≤ b.m_timestamp) ∧
    (ts_ge a b = true ↔ b.m_timestamp ≤ a.m_timestamp) ∧
    (ts_le a b = true → ts_le b c = true → ts_le a c = true) ∧
    (ts_le a b = true ∨ ts_le b a = true) ∧
    (ts_le a b = true → ts_le b a = true → ts_eq a b = true) ∧
    ts_lt (Timestamp.mk 0) start_of_time = true := by
  refine ⟨?_, ?_, ?_, ?_, ?_, ?_, ?_, ?_, ?_, ?_⟩ <;>
    simp only [ts_eq, ts_ne, ts_lt, ts_gt, ts_le, ts_ge, start_of_time, Timestamp.ofUInt,
      beq_iff_eq, Bool.not_eq_true', beq_eq_false_iff_ne, ne_eq, decide_eq_true_eq,
      decide_eq_false_iff_not, not_lt] <;>
    omega

/-- C5 witness: transitivity of <= applied at the concrete triple
0, 1, 2. -/
theorem C5_order_witness : ts_le (Timestamp.mk 0) (Timestamp.mk 2) = true :=
  (C5_order (Timestamp.mk 0) (Timestamp.mk 1) (Timestamp.mk 2)).2.2.2.2.2.2.1
    (by decide) (by decide)

/-- C6: start_of_time holds representation value 1 and is strictly below
every other valid timestamp; end_of_time holds 0xFFFFFFFF and is strictly
above every other valid timestamp in the uint32_t range. -/
theorem C6_sentinels (t : Timestamp) (hv : t.m_timestamp ≠ 0)
    (hw : t.m_timestamp < 2 ^ 32) :
    start_of_time.m_timestamp = 1 ∧
    end_of_time.m_timestamp = 4294967295 ∧
    (t.m_timestamp ≠ 1 → ts_lt start_of_time t = true) ∧
    (t.m_timestamp ≠ 4294967295 → ts_lt t end_of_time = true) := by
  refine ⟨rfl, rfl, ?_, ?_⟩ <;>
    · intro h
      simp only [ts_lt, start_of_time, end_of_time, Timestamp.ofUInt, decide_eq_true_eq]
      omega

/-- C6 witness: the sentinel bounds applied at the concrete valid
timestamp 1000000. -/
theorem C6_sentinels_witness :
    ts_lt start_of_time (Timestamp.mk 1000000) = true ∧
    ts_lt (Timestamp.mk 1000000) end_of_time = true :=
  ⟨(C6_sentinels (Timestamp.mk 1000000) (by decide) (by decide)).2.2.1 (by decide),
   (C6_sentinels (Timestamp.mk 1000000) (by decide) (by decide)).2.2.2 (by decide)⟩

/-- C7 counterexample: operator+= does mutate the stored seconds value of
a constructed Timestamp, so not every public operation leaves the
instance unchanged. -/
theorem C7_counterexample :
    (Timestamp.op_add_assign (Timestamp.mk 1) 1).m_timestamp ≠
      (Timestamp.mk 1).m_timestamp := by
  decide

/-- C7 amended: operator+= and operator-= are the mutating operations:
operator+= replaces the stored value with the wrapped 32-bit sum, and
operator-= undoes it exactly (the two are mutually inverse on the
uint32_t range); all const observers are pure functions of the value. -/
theorem C7_amended (t : Timestamp) (d : Nat) (hw : t.m_timestamp < 2 ^ 32) :
    (Timestamp.op_add_assign t d).m_timestamp = (t.m_timestamp + d) % 2 ^ 32 ∧
    Timestamp.op_sub_assign (Timestamp.op_add_assign t d) d = t := by
  obtain ⟨m⟩ := t
  have hm : m < 2 ^ 32 := hw
  refine ⟨rfl, ?_⟩
  show Timestamp.mk (((m + d) % 2 ^ 32 + (2 ^ 32 - d % 2 ^ 32)) % 2 ^ 32) = Timestamp.mk m
  rw [Timestamp.mk.injEq]
  have h : (2:Nat) ^ 32 = 4294967296 := by norm_num
  rw [h] at hm ⊢
  omega

/-- C7 witness: the wrapped-add equation and add/sub inversion at the
concrete value 7 with difference 5. -/
theorem C7_amended_witness :
    (Timestamp.op_add_assign (Timestamp.mk 7) 5).m_timestamp = 12 ∧
    Timestamp.op_sub_assign (Timestamp.op_add_assign (Timestamp.mk 7) 5) 5 =
      Timestamp.mk 7 := by
  have h := C7_amended (Timestamp.mk 7) 5 (by norm_num)
  exact ⟨h.1.trans (by norm_num), h.2⟩

end Osmium

namespace Osmium

/-- The structural check unfolded into its twenty character conditions. -/
theorem structuralOK_eq_true_iff (s : List Char) :
    structuralOK s = true ↔
      (isDigitAt s 0 = true ∧ isDigitAt s 1 = true ∧ isDigitAt s 2 = true ∧
       isDigitAt s 3 = true ∧ cAt s 4 = '-' ∧ isDigitAt s 5 = true ∧
       isDigitAt s 6 = true ∧ cAt s 7 = '-' ∧ isDigitAt s 8 = true ∧
       isDigitAt s 9 = true ∧ cAt s 10 = 'T' ∧ isDigitAt s 11 = true ∧
       isDigitAt s 12 = true ∧ cAt s 13 = ':' ∧ isDigitAt s 14 = true ∧
       isDigitAt s 15 = true ∧ cAt s 16 = ':' ∧ isDigitAt s 17 = true ∧
       isDigitAt s 18 = true ∧ cAt s 19 = 'Z') := by
  simp only [structuralOK, Bool.and_eq_true, beq_iff_eq, and_assoc]

/-- The range check unfolded into its eleven field conditions. -/
theorem rangeOK_eq_true_iff (s : List Char) :
    rangeOK s = true ↔
      (0 ≤ tmYear s ∧ 0 ≤ tmMon s ∧ tmMon s ≤ 11 ∧ 1 ≤ tmMday s ∧
       tmMday s ≤ mon_lengths.getD (tmMon s).toNat 0 ∧
       0 ≤ tmHour s ∧ tmHour s ≤ 23 ∧ 0 ≤ tmMin s ∧ tmMin s ≤ 59 ∧
       0 ≤ tmSec s ∧ tmSec s ≤ 60) := by
  simp only [rangeOK, Bool.and_eq_true, decide_eq_true_eq, and_assoc]

/-- C2 counterexample: an input of length 21 (deviating from the fixed
20-character shape) is nevertheless parsed successfully, because the
parser never inspects characters past position 19. -/
theorem C2_counterexample :
    ("2015-01-01T00:00:00ZZ".data).length = 21 ∧
    parse_timestamp "2015-01-01T00:00:00ZZ".data = some 1420070400 := by
  exact ⟨rfl, rfl⟩

/-- C2 amended: every input that is shorter than 20 characters, or has a
wrong separator, month 00 or 13, day 00 or a day above the fixed
per-month bound, hour 24, minute 60 or second 61 in its first 20
characters, makes the parser fail with the parse error; characters past
position 19 are never inspected, so longer strings with a valid
20-character prefix are accepted. -/
theorem C2_amended (s : List Char)
    (h : s.length < 20 ∨
      cAt s 4 ≠ '-' ∨ cAt s 7 ≠ '-' ∨ cAt s 10 ≠ 'T' ∨
      cAt s 13 ≠ ':' ∨ cAt s 16 ≠ ':' ∨ cAt s 19 ≠ 'Z' ∨
      tmMon s = -1 ∨ tmMon s = 12 ∨
      tmMday s = 0 ∨
      (0 ≤ tmMon s ∧ tmMon s ≤ 11 ∧ mon_lengths.getD (tmMon s).toNat 0 < tmMday s) ∨
      tmHour s = 24 ∨ tmMin s = 60 ∨ tmSec s = 61) :
    parse_timestamp s = none := by
  cases hst : structuralOK s with
  | false => simp [parse_timestamp, hst]
  | true =>
    obtain ⟨d0, d1, d2, d3, e4, d5, d6, e7, d8, d9, e10,
      d11, d12, e13, d14, d15, e16, d17, d18, e19⟩ :=
      (structuralOK_eq_true_iff s).mp hst
    have hrange : rangeOK s = false := by
      rw [Bool.eq_false_iff]
      intro hr
      obtain ⟨y0, m0, m1, dd0, dd1, h0, h1, mi0, mi1, s0, s1⟩ :=
        (rangeOK_eq_true_iff s).mp hr
      rcases h with h | h | h | h | h | h | h | h | h | h | h | h | h | h
      · have hz : cAt s 19 = nulChar := List.getD_eq_default _ _ (by omega)
        rw [e19] at hz
        exact absurd hz (by decide)
      · exact h e4
      · exact h e7
      · exact h e10
      · exact h e13
      · exact h e16
      · exact h e19
      · omega
      · omega
      · omega
      · omega
      · omega
      · omega
      · omega
    simp [parse_timestamp, hst, hrange]

/-- C2 amended witness: the wrong-separator example input
"2015/01/01T00:00:00Z" fails to parse. -/
theorem C2_amended_witness :
    parse_timestamp "2015/01/01T00:00:00Z".data = none :=
  C2_amended "2015/01/01T00:00:00Z".data (Or.inr (Or.inl (by decide)))

/-- C8: every input passing the structural check whose second field is
exactly 60 and whose other fields are in range is parsed successfully to
the normal calendar-to-epoch conversion of its fields. -/
theorem C8_leap_second (s : List Char)
    (hst : structuralOK s = true)
    (hy : 0 ≤ tmYear s) (hm0 : 0 ≤ tmMon s) (hm1 : tmMon s ≤ 11)
    (hd0 : 1 ≤ tmMday s) (hd1 : tmMday s ≤ mon_lengths.getD (tmMon s).toNat 0)
    (hh0 : 0 ≤ tmHour s) (hh1 : tmHour s ≤ 23)
    (hmi0 : 0 ≤ tmMin s) (hmi1 : tmMin s ≤ 59)
    (hsec : tmSec s = 60) :
    parse_timestamp s =
      some (timegm (tmYear s) (tmMon s) (tmMday s) (tmHour s) (tmMin s) (tmSec s)) := by
  have hr : rangeOK s = true :=
    (rangeOK_eq_true_iff s).mpr
      ⟨hy, hm0, hm1, hd0, hd1, hh0, hh1, hmi0, hmi1, by omega, by omega⟩
  simp [parse_timestamp, hst, hr]

/-- C8 witness: the leap-second input "2016-06-30T23:59:60Z" parses to
1467331200 (= 2016-07-01T00:00:00Z by normal calendar conversion). -/
theorem C8_leap_second_witness :
    parse_timestamp "2016-06-30T23:59:60Z".data = some 1467331200 := by
  have h := C8_leap_second "2016-06-30T23:59:60Z".data (by decide) (by decide)
    (by decide) (by decide) (by decide) (by decide) (by decide) (by decide)
    (by decide) (by decide) (by decide)
  exact h.trans (by decide)

end Osmium

namespace Osmium

/-- Every entry of the parser's month-length table is at most 31. -/
theorem mon_lengths_getD_le (k : Nat) : mon_lengths.getD k 0 ≤ 31 := by
  by_cases hk : k < 12
  · exact (by decide : ∀ m, m < 12 → mon_lengths.getD m 0 ≤ 31) k hk
  · rw [List.getD_eq_default _ _ (by simp [mon_lengths]; omega)]
    norm_num

/-- The day count before any month of a non-leap year is at most 334. -/
theorem daysBeforeMonth_false_le (m : Nat) (hm : m ≤ 11) :
    daysBeforeMonth false m ≤ 334 :=
  (by decide : ∀ k, k ≤ 11 → daysBeforeMonth false k ≤ 334) m hm

/-- The day count before any month of any year is at most 335. -/
theorem daysBeforeMonth_le (l : Bool) (m : Nat) (hm : m ≤ 11) :
    daysBeforeMonth l m ≤ 335 := by
  cases l
  · exact (daysBeforeMonth_false_le m hm).trans (by norm_num)
  · exact (by decide : ∀ k, k ≤ 11 → daysBeforeMonth true k ≤ 335) m hm

/-- Any calendar date of a year from 1900 to 1969 with month and day in
the parser's ranges lies strictly before the epoch day count. -/
theorem daysFromCivil_lt_epoch (y m d : Nat)
    (hy0 : 1900 ≤ y) (hy1 : y ≤ 1969) (hm : m ≤ 11) (hd : d ≤ 31) :
    daysFromCivil y m d ≤ 719527 := by
  unfold daysFromCivil
  by_cases hcase : y = 1969
  · subst hcase
    have h1 : daysBeforeYear 1969 = 719163 := by norm_num [daysBeforeYear]
    have h2 : isLeap 1969 = false := by decide
    rw [h1, h2]
    have := daysBeforeMonth_false_le m hm
    omega
  · have hy2 : y ≤ 1968 := by omega
    have h1 : daysBeforeYear y ≤ 718797 := by
      unfold daysBeforeYear
      omega
    have := daysBeforeMonth_le (isLeap y) m hm
    omega

end Osmium

namespace Osmium

/-- C10 counterexample: "1899-12-31T23:59:59Z" is structurally valid with
every calendar field in range (month, day, hour, minute, second) and its
date precedes the epoch, yet the parser fails, because the code also
requires tm_year >= 0, i.e. a year of at least 1900. -/
theorem C10_counterexample :
    structuralOK "1899-12-31T23:59:59Z".data = true ∧
    (0 ≤ tmMon "1899-12-31T23:59:59Z".data ∧
      tmMon "1899-12-31T23:59:59Z".data ≤ 11) ∧
    (1 ≤ tmMday "1899-12-31T23:59:59Z".data ∧
      tmMday "1899-12-31T23:59:59Z".data ≤
        mon_lengths.getD (tmMon "1899-12-31T23:59:59Z".data).toNat 0) ∧
    tmHour "1899-12-31T23:59:59Z".data ≤ 23 ∧
    tmMin "1899-12-31T23:59:59Z".data ≤ 59 ∧
    tmSec "1899-12-31T23:59:59Z".data ≤ 60 ∧
    tmYear "1899-12-31T23:59:59Z".data + 1900 = 1899 ∧
    parse_timestamp "1899-12-31T23:59:59Z".data = none := by
  decide

/-- C10 amended: for every structurally valid input whose fields pass the
parser's own range checks (which require a year of at least 1900) and
whose year is at most 1969, the parser succeeds; the epoch-seconds result
is at most 0 (strictly negative whenever the second field is at most 59),
and the string constructor reduces it modulo 2^32 into the unsigned
representation; in particular "1969-12-31T23:59:59Z" yields 0xFFFFFFFF. -/
theorem C10_amended (s : List Char)
    (hst : structuralOK s = true)
    (hy0 : 0 ≤ tmYear s) (hy1 : tmYear s ≤ 69)
    (hm0 : 0 ≤ tmMon s) (hm1 : tmMon s ≤ 11)
    (hd0 : 1 ≤ tmMday s) (hd1 : tmMday s ≤ mon_lengths.getD (tmMon s).toNat 0)
    (hh0 : 0 ≤ tmHour s) (hh1 : tmHour s ≤ 23)
    (hmi0 : 0 ≤ tmMin s) (hmi1 : tmMin s ≤ 59)
    (hs0 : 0 ≤ tmSec s) (hs1 : tmSec s ≤ 60) :
    parse_timestamp s =
      some (timegm (tmYear s) (tmMon s) (tmMday s) (tmHour s) (tmMin s) (tmSec s)) ∧
    timegm (tmYear s) (tmMon s) (tmMday s) (tmHour s) (tmMin s) (tmSec s) ≤ 0 ∧
    (tmSec s ≤ 59 →
      timegm (tmYear s) (tmMon s) (tmMday s) (tmHour s) (tmMin s) (tmSec s) < 0) ∧
    Timestamp.ofString s =
      some (Timestamp.ofTimeT
        (timegm (tmYear s) (tmMon s) (tmMday s) (tmHour s) (tmMin s) (tmSec s))) ∧
    Timestamp.ofString "1969-12-31T23:59:59Z".data = some (Timestamp.mk 4294967295) := by
  have hr : rangeOK s = true :=
    (rangeOK_eq_true_iff s).mpr
      ⟨hy0, hm0, hm1, hd0, hd1, hh0, hh1, hmi0, hmi1, hs0, hs1⟩
  have hparse : parse_timestamp s =
      some (timegm (tmYear s) (tmMon s) (tmMday s) (tmHour s) (tmMin s) (tmSec s)) := by
    simp [parse_timestamp, hst, hr]
  have hdays : daysFromCivil (1900 + tmYear s).toNat (tmMon s).toNat (tmMday s).toNat ≤
      719527 := by
    have hmb := mon_lengths_getD_le (tmMon s).toNat
    exact daysFromCivil_lt_epoch _ _ _ (by omega) (by omega) (by omega) (by omega)
  have hbound : ∀ cap : Int, tmSec s ≤ cap →
      timegm (tmYear s) (tmMon s) (tmMday s) (tmHour s) (tmMin s) (tmSec s) ≤
        (cap - 60) * 1 - 86400 + 23 * 3600 + 59 * 60 + 60 := by
    intro cap hcap
    unfold timegm epochDays
    omega
  refine ⟨hparse, ?_, ?_, ?_, ?_⟩
  · have := hbound 60 hs1
    omega
  · intro h59
    have := hbound 59 h59
    omega
  · simp [Timestamp.ofString, hparse]
  · rfl

/-- C10 amended witness: the pre-epoch input "1969-12-31T23:59:59Z"
parses to time_t -1 and the constructor narrows it to 0xFFFFFFFF. -/
theorem C10_amended_witness :
    parse_timestamp "1969-12-31T23:59:59Z".data = some (-1) ∧
    Timestamp.ofString "1969-12-31T23:59:59Z".data = some (Timestamp.mk 4294967295) := by
  have h := C10_amended "1969-12-31T23:59:59Z".data (by decide) (by decide) (by decide)
    (by decide) (by decide) (by decide) (by decide) (by decide) (by decide)
    (by decide) (by decide) (by decide) (by decide)
  exact ⟨h.1.trans (by decide), h.2.2.2.2⟩

end Osmium
